import Mathlib

/-!
Verification of the gateway lifecycle and service registration core of the
dstack server (`dstack/_internal/server/services/gateways/__init__.py`),
shallowly embedded in Lean 4.

Python exceptions are modelled by the inductive `PyErr`; a fallible Python
function becomes a Lean function returning `Except PyErr _`.  Remote calls
(the gateway daemon, the backend compute, the SSH tunnel) are modelled by
explicit outcome parameters: a function `Nat → _` gives the outcome of the
k-th attempt of a retried call.  Database rows and the in-memory connection
pool are modelled as explicit record/list state threaded through each
operation.
-/

namespace Dstack

/-- Error taxonomy of the gateway core. Each constructor is one Python
exception class raised or caught by the code; the string is its message. -/
inductive PyErr where
  | serverClientError (msg : String)
  | resourceNotExistsError (msg : String)
  | gatewayError (msg : String)
  | sshError (msg : String)
  | requestError (msg : String)
  | otherError (msg : String)
  deriving DecidableEq, Repr

/-- Python `repr(e)` of a modelled exception, as used in
`raise GatewayError(repr(e))` and f-string `{e!r}` interpolations. -/
def PyErr.reprStr : PyErr → String
  | .serverClientError m => "ServerClientError(" ++ m ++ ")"
  | .resourceNotExistsError m => "ResourceNotExistsError(" ++ m ++ ")"
  | .gatewayError m => "GatewayError(" ++ m ++ ")"
  | .sshError m => "SSHError(" ++ m ++ ")"
  | .requestError m => "RequestError(" ++ m ++ ")"
  | .otherError m => "Exception(" ++ m ++ ")"

/-- Whether an exception is `httpx.RequestError`, the only class caught by
the retry loop of `configure_gateway`. -/
def PyErr.isRequestError : PyErr → Bool
  | .requestError _ => true
  | _ => false

/-- Gateway status enum (`GatewayStatus`). -/
inductive GatewayStatus where
  | submitted
  | provisioning
  | running
  | failed
  deriving DecidableEq, Repr

/-- Backend type enum (`BackendType`); only the members the gateway core
mentions are modelled. -/
inductive BackendType where
  | aws
  | azure
  | gcp
  | kubernetes
  | dstack
  deriving DecidableEq, Repr

/-- The `value` attribute of a `BackendType` member. -/
def BackendType.value : BackendType → String
  | .aws => "aws"
  | .azure => "azure"
  | .gcp => "gcp"
  | .kubernetes => "kubernetes"
  | .dstack => "dstack"

/-- A live control connection (`GatewayConnection`); only the attribute the
claims mention is modelled. -/
structure GatewayConnection where
  ip_address : String
  deriving DecidableEq, Repr

-- Retry budgets, bit-exact from the source.

def GATEWAY_CONNECT_ATTEMPTS : Nat := 30
def GATEWAY_CONNECT_DELAY : Nat := 10
def GATEWAY_CONFIGURE_ATTEMPTS : Nat := 40
def GATEWAY_CONFIGURE_DELAY : Nat := 3

/-!
`connect_to_gateway_with_retry(gateway_compute)`:

```python
connection = None
for attempt in range(GATEWAY_CONNECT_ATTEMPTS):
    try:
        connection = await gateway_connections_pool.add(ip, key)
        break
    except SSHError as e:
        if attempt < GATEWAY_CONNECT_ATTEMPTS - 1:
            await asyncio.sleep(GATEWAY_CONNECT_DELAY)
return connection
```

The outcome of the k-th `pool.add` call (0-based) is given by
`add k : Option GatewayConnection`; `none` means the call raised `SSHError`
(which the loop catches for every attempt index; `attempt < n-1` only
selects sleeping versus logging).
-/

/-- The retry loop of `connect_to_gateway_with_retry`: `i` is the next
attempt index, `fuel` the number of attempts left. Returns the number of
attempts made and the connection (or `none` after exhaustion). -/
def connectLoop (add : Nat → Option GatewayConnection) :
    Nat → Nat → Nat × Option GatewayConnection
  | i, 0 => (i, none)
  | i, fuel + 1 =>
    match add i with
    | some c => (i + 1, some c)
    | none => connectLoop add (i + 1) fuel

/-- `connect_to_gateway_with_retry`, as a function of the per-attempt
outcomes of `gateway_connections_pool.add`. -/
def connect_to_gateway_with_retry (add : Nat → Option GatewayConnection) :
    Nat × Option GatewayConnection :=
  connectLoop add 0 GATEWAY_CONNECT_ATTEMPTS

/-!
`configure_gateway(connection)`:

```python
for attempt in range(GATEWAY_CONFIGURE_ATTEMPTS - 1):
    try:
        async with connection.client() as client:
            await client.submit_gateway_config()
        break
    except httpx.RequestError as e:
        await asyncio.sleep(GATEWAY_CONFIGURE_DELAY)
else:
    async with connection.client() as client:
        await client.submit_gateway_config()
```

The outcome of the k-th `submit_gateway_config` call (0-based) is
`submit k : Except PyErr Unit`.  The `for` body catches only
`httpx.RequestError`; the `for ... else` clause performs one final,
uncaught call.
-/

/-- The retry loop of `configure_gateway`: `i` is the next call index,
`fuel` the number of remaining caught iterations (the `for` over
`range(GATEWAY_CONFIGURE_ATTEMPTS - 1)`); at `fuel = 0` the `else` clause
makes one final uncaught call. Returns the number of calls made and the
overall result. -/
def configureLoop (submit : Nat → Except PyErr Unit) :
    Nat → Nat → Nat × Except PyErr Unit
  | i, 0 => (i + 1, submit i)
  | i, fuel + 1 =>
    match submit i with
    | .ok () => (i + 1, .ok ())
    | .error (.requestError _) => configureLoop submit (i + 1) fuel
    | .error e => (i + 1, .error e)

/-- `configure_gateway`, as a function of the per-call outcomes of
`submit_gateway_config`. -/
def configure_gateway (submit : Nat → Except PyErr Unit) :
    Nat × Except PyErr Unit :=
  configureLoop submit 0 (GATEWAY_CONFIGURE_ATTEMPTS - 1)

/-!
Data model for service registration (`register_service`). The source
stores `Gateway.configuration` and `Run.run_spec` as JSON and parses them
on use; the model stores the parsed values directly (parsing is the
identity here), which is faithful for every claim about `register_service`
since the function only ever reads the parsed forms.
-/

/-- `GatewayConfiguration` value object. -/
structure GatewayConfiguration where
  name : Option String
  default : Bool
  backend : BackendType
  region : String
  domain : Option String
  public_ip : Bool
  deriving DecidableEq, Repr

/-- `GatewayComputeModel` row. -/
structure GatewayComputeModel where
  ip_address : String
  instance_id : String
  region : String
  ssh_private_key : String
  active : Bool
  deleted : Bool
  deriving DecidableEq, Repr

/-- `GatewayModel` row (with its backend's type inlined as
`backend_type`, standing for `gateway.backend.type`). -/
structure GatewayModel where
  id : Nat
  name : String
  region : String
  gateway_compute : Option GatewayComputeModel
  status : GatewayStatus
  configuration : Option GatewayConfiguration
  wildcard_domain : Option String
  backend_type : BackendType
  deriving DecidableEq, Repr

/-- `ProjectModel` row, restricted to the attributes `register_service`
reads: `default_gateway` (the row pointed to by `default_gateway_id`),
`name` and `ssh_private_key`. -/
structure ProjectModel where
  name : String
  default_gateway : Option GatewayModel
  ssh_private_key : String
  deriving DecidableEq, Repr

/-- `ServiceModelSpec` value object. -/
structure ServiceModelSpec where
  name : String
  base_url : String
  type : String
  deriving DecidableEq, Repr

/-- Opaque result type of the external `get_service_options` helper. -/
abbrev ServiceOptions := List (String × String)

/-- `ServiceSpec` value object persisted into the run row. -/
structure ServiceSpec where
  url : String
  model : Option ServiceModelSpec
  options : ServiceOptions
  deriving DecidableEq, Repr

/-- The `model` part of `run_spec.configuration`, restricted to the
attributes `register_service` reads. -/
structure RunModelConfig where
  name : String
  type : String
  deriving DecidableEq, Repr

/-- `run_spec.configuration`, restricted to the attributes
`register_service` reads. -/
structure RunConfiguration where
  https : Bool
  model : Option RunModelConfig
  auth : Bool
  deriving DecidableEq, Repr

/-- Parsed `RunSpec`. -/
structure RunSpec where
  configuration : RunConfiguration
  deriving DecidableEq, Repr

/-- `RunModel` row, restricted to what `register_service` reads and
writes: `run_model.gateway` holds the id of the assigned gateway row. -/
structure RunModel where
  id : Nat
  run_name : String
  gateway : Option Nat
  service_spec : Option ServiceSpec
  deriving DecidableEq, Repr

/-- Lookup in the connection pool (`gateway_connections_pool.get`),
modelled as an association-list snapshot of the pool's map. -/
def poolGet (pool : List (String × GatewayConnection)) (host : String) :
    Option GatewayConnection :=
  (pool.find? (fun e => e.1 == host)).map (fun e => e.2)

/-- Python `s.lstrip(chars)`: remove every leading character that is a
member of `chars` (a character set, not a literal word). -/
def lstripCharsAux (cs : List Char) : List Char → List Char
  | [] => []
  | c :: rest => if c ∈ cs then lstripCharsAux cs rest else c :: rest

/-- Python `s.lstrip(chars)` on strings. -/
def pyLstrip (cs : List Char) (s : String) : String :=
  String.mk (lstripCharsAux cs s.data)

/-- Stripping per the words of the claim and spec section 4.G step 5:
remove exactly one leading literal occurrence of the two-character word
star-dot, leaving any other string unchanged. Stated only to compare with
the source's `lstrip`. -/
def specStripLiteralStarDot (s : String) : String :=
  match s.data with
  | '*' :: '.' :: rest => String.mk rest
  | _ => s

/-- Lowercase an ASCII character (the relevant fragment of Python's
hostname normalisation for the URLs built here). -/
def asciiToLower (c : Char) : Char :=
  if 'A' ≤ c ∧ c ≤ 'Z' then Char.ofNat (c.toNat + 32) else c

/-- Drop everything up to and including the scheme separator
colon-slash-slash. -/
def dropSchemeSep : List Char → Option (List Char)
  | [] => none
  | ':' :: '/' :: '/' :: rest => some rest
  | _ :: rest => dropSchemeSep rest

/-- Hostname of a URL of the shape built by `register_service`
(`scheme://host`, no port, no path, ASCII): `urlparse(url).hostname`,
which lowercases the host. -/
def urlHostname (url : String) : String :=
  String.mk (((dropSchemeSep url.data).getD url.data).map asciiToLower)

/-- Arguments of the remote `client.register_service(...)` call. -/
structure RegisterCallArgs where
  project : String
  run_id : Nat
  domain : String
  service_https : Bool
  gateway_https : Bool
  auth : Bool
  options : ServiceOptions
  ssh_private_key : String
  deriving DecidableEq, Repr

/-- Inputs of `register_service(session, run_model)`: the run row, its
parsed `run_spec`, the project row (`run_model.project`), a snapshot of
the connection pool, the outcome of the remote call should it be reached,
and the external `get_service_options` helper. -/
structure RegisterServiceIn where
  run_model : RunModel
  run_spec : RunSpec
  project : ProjectModel
  pool : List (String × GatewayConnection)
  remote : Except PyErr Unit
  options_of : RunConfiguration → ServiceOptions

deriving instance DecidableEq for Except

/-- Result of `register_service`: the run row after the call (capturing
in-place mutation of `run_model`), the remote call's arguments when the
call was issued, and the overall outcome. -/
structure RegisterServiceOut where
  run_model : RunModel
  call : Option RegisterCallArgs
  result : Except PyErr Unit
  deriving DecidableEq, Repr

/-- `register_service(session, run_model)`. The `gateway_name` local is
the constant `None` in the source, so only the default-gateway branch is
live and modelled. The empty string is falsy in Python, so an empty
`wildcard_domain` also takes the `Domain is required` branch. -/
def register_service (inp : RegisterServiceIn) : RegisterServiceOut :=
  match inp.project.default_gateway with
  | none =>
    ⟨inp.run_model, none, .error (.resourceNotExistsError "Default gateway is not set")⟩
  | some gateway =>
    match gateway.gateway_compute with
    | none =>
      ⟨inp.run_model, none,
        .error (.serverClientError "Gateway has no instance associated with it")⟩
    | some gateway_compute =>
      if gateway.status ≠ GatewayStatus.running then
        ⟨inp.run_model, none, .error (.serverClientError "Gateway status is not running")⟩
      else
        let service_https := inp.run_spec.configuration.https
        let service_protocol := if service_https then "https" else "http"
        if (match gateway.configuration with
            | some gc => service_https && !gc.public_ip
            | none => false) then
          ⟨inp.run_model, none,
            .error (.serverClientError "Cannot run HTTPS service on gateway without public IP")⟩
        else
          let gateway_https : Bool :=
            match gateway.configuration with
            | some gc => gc.public_ip
            | none => true
          let gateway_protocol := if gateway_https then "https" else "http"
          match (match gateway.wildcard_domain with
                 | some d => if d = "" then none else some (pyLstrip ['*', '.'] d)
                 | none => none) with
          | none =>
            ⟨inp.run_model, none, .error (.serverClientError "Domain is required for gateway")⟩
          | some wildcard_domain =>
            let url :=
              service_protocol ++ "://" ++ inp.run_model.run_name ++ "." ++ wildcard_domain
            let service_spec : ServiceSpec :=
              match inp.run_spec.configuration.model with
              | some m =>
                { url := url
                  model := some
                    { name := m.name
                      base_url := gateway_protocol ++ "://gateway." ++ wildcard_domain
                      type := m.type }
                  options := inp.options_of inp.run_spec.configuration }
              | none => { url := url, model := none, options := [] }
            let run_model2 := { inp.run_model with
              gateway := some gateway.id, service_spec := some service_spec }
            match poolGet inp.pool gateway_compute.ip_address with
            | none =>
              ⟨run_model2, none, .error (.serverClientError "Gateway is not connected")⟩
            | some _conn =>
              let args : RegisterCallArgs :=
                { project := inp.project.name
                  run_id := inp.run_model.id
                  domain := urlHostname service_spec.url
                  service_https := service_https
                  gateway_https := gateway_https
                  auth := inp.run_spec.configuration.auth
                  options := service_spec.options
                  ssh_private_key := inp.project.ssh_private_key }
              match inp.remote with
              | .ok () => ⟨run_model2, some args, .ok ()⟩
              | .error (.sshError _) =>
                ⟨run_model2, some args,
                  .error (.serverClientError "Gateway tunnel is not working")⟩
              | .error (.requestError m) =>
                ⟨run_model2, some args,
                  .error (.gatewayError
                    ("Gateway is not working: " ++ PyErr.reprStr (.requestError m)))⟩
              | .error e => ⟨run_model2, some args, .error e⟩

/-- `get_gateway_configuration(gateway_model)`. For rows predating the
`configuration` column the reconstructed `public_ip` is the model field's
default `True` (spec section 6 backward-compatibility note; the default
itself lives outside `src/`). -/
def get_gateway_configuration (g : GatewayModel) : GatewayConfiguration :=
  match g.configuration with
  | some c => c
  | none =>
    { name := some g.name
      default := false
      backend := g.backend_type
      region := g.region
      domain := g.wildcard_domain
      public_ip := true }

-- Concrete fixtures used by closed theorems.

/-- A running default gateway with a connected-looking compute and a
public-IP configuration. -/
def gwFixture : GatewayModel :=
  { id := 1
    name := "main-gw"
    region := "us-east-1"
    gateway_compute := some
      { ip_address := "203.0.113.5"
        instance_id := "i-1"
        region := "us-east-1"
        ssh_private_key := "pk"
        active := true
        deleted := false }
    status := .running
    configuration := some
      { name := some "main-gw"
        default := true
        backend := .aws
        region := "us-east-1"
        domain := some "*.example.com"
        public_ip := true }
    wildcard_domain := some "*.example.com"
    backend_type := .aws }

/-- Register a plain HTTP service on `gwFixture` while the pool has no
entry for its compute IP. -/
def disconnectedIn : RegisterServiceIn :=
  { run_model := { id := 7, run_name := "svc", gateway := none, service_spec := none }
    run_spec := { configuration := { https := false, model := none, auth := false } }
    project := { name := "proj", default_gateway := some gwFixture, ssh_private_key := "psk" }
    pool := []
    remote := .ok ()
    options_of := fun _ => [] }

/-- Register a service on a gateway whose wildcard domain starts with a
dot but not with the literal star-dot word. -/
def dotDomainIn : RegisterServiceIn :=
  { run_model := { id := 8, run_name := "r1", gateway := none, service_spec := none }
    run_spec := { configuration := { https := false, model := none, auth := false } }
    project :=
      { name := "proj"
        default_gateway := some ({ gwFixture with wildcard_domain := some ".example.com" })
        ssh_private_key := "psk" }
    pool := [("203.0.113.5", ⟨"203.0.113.5"⟩)]
    remote := .ok ()
    options_of := fun _ => [] }

/-- Configuration of a private (no public IP) gateway on a backend that
supports private gateways. -/
def privateGwConfig : GatewayConfiguration :=
  { name := some "main-gw"
    default := true
    backend := .kubernetes
    region := "us-east-1"
    domain := some "*.example.com"
    public_ip := false }

/-- Register an HTTPS service on a private (no public IP) gateway. -/
def httpsPrivateIn : RegisterServiceIn :=
  { run_model := { id := 9, run_name := "sec", gateway := none, service_spec := none }
    run_spec := { configuration := { https := true, model := none, auth := false } }
    project :=
      { name := "proj"
        default_gateway := some ({ gwFixture with configuration := some privateGwConfig })
        ssh_private_key := "psk" }
    pool := [("203.0.113.5", ⟨"203.0.113.5"⟩)]
    remote := .ok ()
    options_of := fun _ => [] }

/-!
Model of `create_gateway` (claim C7).
-/

/-- Modelled from the spec: `BACKENDS_WITH_PRIVATE_GATEWAY_SUPPORT` is
imported from `dstack._internal.core.backends`, which is not under `src/`.
The spec fixes the allow-list's contents: `public_ip=false` is permitted
only for backends in it, `kubernetes` is in it and `aws` is not (section 3
and scenario 2). -/
def BACKENDS_WITH_PRIVATE_GATEWAY_SUPPORT : List BackendType := [.kubernetes]

/-- The `ServerClientError` message of the private-gateway rejection: the
f-string interpolates the backend's `value` and the Python list display of
the supported backends' `value` strings. -/
def privateGatewayErrorMsg (b : BackendType) : String :=
  "Private gateways are not supported for " ++ b.value ++ " backend. " ++
    "Supported backends: [" ++
    String.intercalate ", "
      (BACKENDS_WITH_PRIVATE_GATEWAY_SUPPORT.map
        (fun x => "\x27" ++ x.value ++ "\x27")) ++
    "]."

/-- The name-drawing loop of `generate_gateway_name`: `draw k` is the k-th
`random_names.generate_name()` result; the loop retries while the draw
collides with an existing name. `fuel` bounds the unbounded Python loop;
`none` models non-termination (every drawn name collides). -/
def generateNameLoop (names : List String) (draw : Nat → String) :
    Nat → Nat → Option String
  | _, 0 => none
  | i, fuel + 1 =>
    if draw i ∈ names then generateNameLoop names draw (i + 1) fuel
    else some (draw i)

/-- `generate_gateway_name(session, project)`, with the project's existing
gateway names passed explicitly. -/
def generate_gateway_name (existing_names : List String) (draw : Nat → String)
    (fuel : Nat) : Option String :=
  generateNameLoop existing_names draw 0 fuel

/-- The `GatewayModel` row constructed and inserted by `create_gateway`
(the fields it passes; `project_id` and `last_processed_at` are
environmental and omitted). -/
structure NewGatewayRow where
  name : String
  region : String
  backend_id : Nat
  wildcard_domain : Option String
  configuration : GatewayConfiguration
  status : GatewayStatus
  deriving DecidableEq, Repr

/-- Result of `create_gateway`: the rows inserted into the session, the
name passed to `set_default_gateway` when that call is made, and the
outcome. -/
structure CreateGatewayOut where
  inserted : List NewGatewayRow
  set_default : Option String
  result : Except PyErr Unit
  deriving DecidableEq, Repr

/-- `create_gateway(session, project, configuration)`. `backend_model` is
the outcome of `get_project_backend_with_model_by_type_or_error` (`none`
models its raise for a backend unknown to the project; that helper and
its message live outside `src/`, per spec section 4.F step 1 it fails
`ServerClientError`). `project_default_gateway` is the project's
`default_gateway` id; `existing_names`, `draw` and `fuel` feed
`generate_gateway_name`. The overall `none` models the non-terminating
name loop. -/
def create_gateway (backend_model : Option Nat)
    (project_default_gateway : Option Nat) (existing_names : List String)
    (configuration : GatewayConfiguration) (draw : Nat → String) (fuel : Nat) :
    Option CreateGatewayOut :=
  match backend_model with
  | none =>
    some ⟨[], none, .error (.serverClientError "Backend is unknown for the project")⟩
  | some backend_id =>
    if ¬ configuration.public_ip ∧
        configuration.backend ∉ BACKENDS_WITH_PRIVATE_GATEWAY_SUPPORT then
      some ⟨[], none,
        .error (.serverClientError (privateGatewayErrorMsg configuration.backend))⟩
    else
      match (match configuration.name with
             | some n => some n
             | none => generate_gateway_name existing_names draw fuel) with
      | none => none
      | some name =>
        let row : NewGatewayRow :=
          { name := name
            region := configuration.region
            backend_id := backend_id
            wildcard_domain := configuration.domain
            configuration := { configuration with name := some name }
            status := GatewayStatus.submitted }
        let set_default :=
          if project_default_gateway = none ∨ configuration.default = true then
            some name
          else none
        some ⟨[row], set_default, .ok ()⟩

/-!
Model of `delete_gateways` (claim C5).
-/

/-- A gateway row as `delete_gateways` sees it; `compute_ip` keys the
optional `gateway_compute` row by its stable `ip_address`. -/
structure GatewayRowRef where
  id : Nat
  name : String
  backend_type : BackendType
  compute_ip : Option String
  deriving DecidableEq, Repr

/-- Server state touched by `delete_gateways`: the project's gateway rows,
the `GatewayCompute` rows, the hosts present in the connection pool, and
`PROCESSING_GATEWAYS_IDS`. -/
structure DeleteState where
  gateways : List GatewayRowRef
  computes : List GatewayComputeModel
  pool_hosts : List String
  processing_ids : List Nat
  deriving DecidableEq, Repr

/-- The cleanup applied per gateway after gathering termination results:
successful termination removes the connection, tombstones the compute
(`active := false, deleted := true`) and deletes the gateway row; a
termination that raised leaves the state untouched (`continue`). -/
def deleteStep (terminate_ok : Nat → Bool) (st : DeleteState) (g : GatewayRowRef) :
    DeleteState :=
  if terminate_ok g.id then
    let st1 :=
      match g.compute_ip with
      | some ip =>
        { st with
          pool_hosts := st.pool_hosts.filter (fun h => h != ip)
          computes := st.computes.map (fun (c : GatewayComputeModel) =>
            if c.ip_address = ip then { c with active := false, deleted := true }
            else c) }
      | none => st
    { st1 with gateways := st1.gateways.filter (fun g2 => g2.id != g.id) }
  else st

/-- `delete_gateways(session, project, gateways_names)`: select the
project's gateways matching the requested names and not on the managed
`DSTACK` backend; `_terminate_gateway` enters the per-id critical section
(adding every selected id to `PROCESSING_GATEWAYS_IDS`) and calls the
backend's `terminate_instance`, whose per-gateway success is
`terminate_ok`; then apply the cleanup per result, and finally release
every selected id from the registry. -/
def delete_gateways (st : DeleteState) (gateways_names : List String)
    (terminate_ok : Nat → Bool) : DeleteState :=
  let selected := st.gateways.filter
    (fun g => decide (g.backend_type ≠ BackendType.dstack ∧ g.name ∈ gateways_names))
  let st1 := { st with
    processing_ids := st.processing_ids ++ selected.map (fun g => g.id) }
  let st2 := selected.foldl (deleteStep terminate_ok) st1
  { st2 with processing_ids :=
      st2.processing_ids.filter (fun i => decide (i ∉ selected.map (fun g => g.id))) }

/-!
Model of `get_gateway_connection`, `unregister_service` and
`unregister_replica` (claims C8, C9, C10).
-/

/-- Observable side effects of an unregister operation. -/
inductive Action where
  | connLookup
  | remoteCall
  deriving DecidableEq, Repr

/-- Context of the unregister operations: gateway rows keyed by id,
carrying the optional compute's IP, plus a snapshot of the pool. -/
structure GatewayDb where
  gateways : List (Nat × Option String)
  pool : List (String × GatewayConnection)
  deriving DecidableEq, Repr

/-- `session.get(GatewayModel, gateway_id)`: `some compute_ip` when the
row exists (with `compute_ip = none` when it has no compute), `none` when
it does not; a `None` gateway id finds no row. -/
def lookupGateway (db : GatewayDb) (gateway_id : Option Nat) :
    Option (Option String) :=
  match gateway_id with
  | none => none
  | some gid => ((db.gateways.find? (fun e => e.1 == gid)).map (fun e => e.2))

/-- `get_gateway_connection(session, gateway_id)`. -/
def get_gateway_connection (db : GatewayDb) (gateway_id : Option Nat) :
    Except PyErr GatewayConnection :=
  match lookupGateway db gateway_id with
  | none => .error (.gatewayError "Gateway doesn\x27t exist")
  | some none => .error (.gatewayError "Gateway is broken, no compute")
  | some (some ip) =>
    match poolGet db.pool ip with
    | none => .error (.gatewayError "Gateway is not connected")
    | some conn => .ok conn

/-- Result of an unregister operation: the observable actions performed,
the outcome, and whether a remote `GatewayError` was downgraded to a
warning. -/
structure UnregisterOut where
  actions : List Action
  result : Except PyErr Unit
  warned : Bool
  deriving DecidableEq, Repr

/-- The shared `try/except` of `unregister_service` and
`unregister_replica` around the remote call: `GatewayError` is swallowed
with a warning, `httpx.RequestError` and `SSHError` are re-raised as
`GatewayError(repr(e))`, anything else propagates. -/
def unregisterRemoteOutcome (remote : Except PyErr Unit) :
    Except PyErr Unit × Bool :=
  match remote with
  | .ok () => (.ok (), false)
  | .error (.gatewayError _) => (.ok (), true)
  | .error (.requestError m) =>
    (.error (.gatewayError (PyErr.reprStr (.requestError m))), false)
  | .error (.sshError m) =>
    (.error (.gatewayError (PyErr.reprStr (.sshError m))), false)
  | .error e => (.error e, false)

/-- `unregister_service(session, run_model)` as a function of the run's
`gateway_id`, the context, and the remote call's outcome. The connection
lookup happens before the `try` block. -/
def unregister_service (db : GatewayDb) (run_gateway_id : Option Nat)
    (remote : Except PyErr Unit) : UnregisterOut :=
  match get_gateway_connection db run_gateway_id with
  | .error e => ⟨[.connLookup], .error e, false⟩
  | .ok _ =>
    let ro := unregisterRemoteOutcome remote
    ⟨[.connLookup, .remoteCall], ro.1, ro.2⟩

/-- `unregister_replica(session, job_model)` as a function of the job's
run's `gateway_id`, the context, and the remote call's outcome: a run
with no gateway returns at once. -/
def unregister_replica (db : GatewayDb) (run_gateway_id : Option Nat)
    (remote : Except PyErr Unit) : UnregisterOut :=
  match run_gateway_id with
  | none => ⟨[], .ok (), false⟩
  | some gid =>
    match get_gateway_connection db (some gid) with
    | .error e => ⟨[.connLookup], .error e, false⟩
    | .ok _ =>
      let ro := unregisterRemoteOutcome remote
      ⟨[.connLookup, .remoteCall], ro.1, ro.2⟩

-- Retry-loop lemmas.

theorem connectLoop_skip_many (add : Nat → Option GatewayConnection) (k : Nat) :
    ∀ i fuel, k ≤ fuel → (∀ j, j < k → add (i + j) = none) →
    connectLoop add i fuel = connectLoop add (i + k) (fuel - k) := by
  induction k with
  | zero => intro i fuel _ _; simp
  | succ k ih =>
    intro i fuel hk hnone
    obtain ⟨f, rfl⟩ : ∃ f, fuel = f + 1 := ⟨fuel - 1, by omega⟩
    have h0 : add i = none := by simpa using hnone 0 (Nat.succ_pos k)
    have step : connectLoop add i (f + 1) = connectLoop add (i + 1) f := by
      simp [connectLoop, h0]
    rw [step, ih (i + 1) f (by omega) (fun j hj => by
      have := hnone (j + 1) (by omega)
      simpa [Nat.add_assoc, Nat.add_comm 1 j] using this)]
    congr 1 <;> omega

theorem configureLoop_skip_many (submit : Nat → Except PyErr Unit) (k : Nat) :
    ∀ i fuel, k ≤ fuel →
    (∀ j, j < k → ∃ m, submit (i + j) = .error (.requestError m)) →
    configureLoop submit i fuel = configureLoop submit (i + k) (fuel - k) := by
  induction k with
  | zero => intro i fuel _ _; simp
  | succ k ih =>
    intro i fuel hk hreq
    obtain ⟨f, rfl⟩ : ∃ f, fuel = f + 1 := ⟨fuel - 1, by omega⟩
    obtain ⟨m, hm⟩ := hreq 0 (Nat.succ_pos k)
    have h0 : submit i = .error (.requestError m) := by simpa using hm
    have step : configureLoop submit i (f + 1) = configureLoop submit (i + 1) f := by
      simp [configureLoop, h0]
    rw [step, ih (i + 1) f (by omega) (fun j hj => by
      obtain ⟨mj, hmj⟩ := hreq (j + 1) (by omega)
      exact ⟨mj, by simpa [Nat.add_assoc, Nat.add_comm 1 j] using hmj⟩)]
    congr 1 <;> omega

theorem configureLoop_fst_le (submit : Nat → Except PyErr Unit) :
    ∀ fuel i, (configureLoop submit i fuel).1 ≤ i + fuel + 1 := by
  intro fuel
  induction fuel with
  | zero => intro i; simp [configureLoop]
  | succ f ih =>
    intro i
    match h : submit i with
    | .ok () => simp [configureLoop, h]
    | .error (.requestError m) =>
      have := ih (i + 1)
      simp [configureLoop, h]
      omega
    | .error (.serverClientError m) => simp [configureLoop, h]
    | .error (.resourceNotExistsError m) => simp [configureLoop, h]
    | .error (.gatewayError m) => simp [configureLoop, h]
    | .error (.sshError m) => simp [configureLoop, h]
    | .error (.otherError m) => simp [configureLoop, h]

/-- C3: `configure_gateway` calls `submit_gateway_config` at most
`GATEWAY_CONFIGURE_ATTEMPTS = 40` times; it returns right after the first
successful call; between attempts it swallows only `RequestError`, any
other error propagating immediately; and an error (in particular a
`RequestError`) on the final 40th attempt is not caught and propagates. -/
theorem configure_gateway_spec :
    GATEWAY_CONFIGURE_ATTEMPTS = 40 ∧
    (∀ submit, (configure_gateway submit).1 ≤ GATEWAY_CONFIGURE_ATTEMPTS) ∧
    (∀ submit k, k < GATEWAY_CONFIGURE_ATTEMPTS →
      (∀ j, j < k → ∃ m, submit j = .error (.requestError m)) →
      submit k = .ok () →
      configure_gateway submit = (k + 1, .ok ())) ∧
    (∀ submit k e, k < GATEWAY_CONFIGURE_ATTEMPTS →
      (∀ j, j < k → ∃ m, submit j = .error (.requestError m)) →
      submit k = .error e → e.isRequestError = false →
      configure_gateway submit = (k + 1, .error e)) ∧
    (∀ submit m,
      (∀ j, j < GATEWAY_CONFIGURE_ATTEMPTS - 1 →
        ∃ mj, submit j = .error (.requestError mj)) →
      submit (GATEWAY_CONFIGURE_ATTEMPTS - 1) = .error (.requestError m) →
      configure_gateway submit =
        (GATEWAY_CONFIGURE_ATTEMPTS, .error (.requestError m))) := by
  refine ⟨rfl, ?_, ?_, ?_, ?_⟩
  · intro submit
    have := configureLoop_fst_le submit (GATEWAY_CONFIGURE_ATTEMPTS - 1) 0
    simpa [configure_gateway, GATEWAY_CONFIGURE_ATTEMPTS] using this
  · intro submit k hk hreq hok
    have hskip := configureLoop_skip_many submit k 0 (GATEWAY_CONFIGURE_ATTEMPTS - 1)
      (by simp [GATEWAY_CONFIGURE_ATTEMPTS] at hk ⊢; omega)
      (fun j hj => by simpa using hreq j hj)
    rw [configure_gateway, hskip]
    by_cases hlast : k = GATEWAY_CONFIGURE_ATTEMPTS - 1
    · subst hlast
      simp [configureLoop, hok]
    · obtain ⟨d, hd⟩ : ∃ d, GATEWAY_CONFIGURE_ATTEMPTS - 1 - k = d + 1 :=
        ⟨GATEWAY_CONFIGURE_ATTEMPTS - 2 - k, by
          simp [GATEWAY_CONFIGURE_ATTEMPTS] at hk hlast ⊢; omega⟩
      rw [hd]
      simp [configureLoop, hok]
  · intro submit k e hk hreq herr hne
    have hskip := configureLoop_skip_many submit k 0 (GATEWAY_CONFIGURE_ATTEMPTS - 1)
      (by simp [GATEWAY_CONFIGURE_ATTEMPTS] at hk ⊢; omega)
      (fun j hj => by simpa using hreq j hj)
    rw [configure_gateway, hskip]
    by_cases hlast : k = GATEWAY_CONFIGURE_ATTEMPTS - 1
    · subst hlast
      simp [configureLoop, herr]
    · obtain ⟨d, hd⟩ : ∃ d, GATEWAY_CONFIGURE_ATTEMPTS - 1 - k = d + 1 :=
        ⟨GATEWAY_CONFIGURE_ATTEMPTS - 2 - k, by
          simp [GATEWAY_CONFIGURE_ATTEMPTS] at hk hlast ⊢; omega⟩
      rw [hd]
      cases e with
      | requestError m => simp [PyErr.isRequestError] at hne
      | serverClientError m => simp [configureLoop, herr]
      | resourceNotExistsError m => simp [configureLoop, herr]
      | gatewayError m => simp [configureLoop, herr]
      | sshError m => simp [configureLoop, herr]
      | otherError m => simp [configureLoop, herr]
  · intro submit m hreq hlast
    have hskip := configureLoop_skip_many submit (GATEWAY_CONFIGURE_ATTEMPTS - 1) 0
      (GATEWAY_CONFIGURE_ATTEMPTS - 1) (Nat.le_refl _)
      (fun j hj => by simpa using hreq j hj)
    rw [configure_gateway, hskip]
    show configureLoop submit 39 0 =
      (GATEWAY_CONFIGURE_ATTEMPTS, .error (.requestError m))
    simp [configureLoop, GATEWAY_CONFIGURE_ATTEMPTS]
    exact hlast

/-- Witness for C3: the daemon rejects the first three calls with
`RequestError` and accepts the fourth; `configure_gateway` makes exactly
four calls and succeeds. -/
theorem configure_gateway_spec_witness :
    configure_gateway
      (fun k => if k < 3 then .error (.requestError "boom") else .ok ()) =
      (4, .ok ()) :=
  configure_gateway_spec.2.2.1
    (fun k => if k < 3 then .error (.requestError "boom") else .ok ())
    3 (by decide)
    (fun j hj => ⟨"boom", by simp [hj]⟩)
    (by simp)

/-- C4: `connect_to_gateway_with_retry` is total (it returns a pair, never
raising `SSHError`, which the loop catches at every attempt index): it
returns the connection produced by the first successful `pool.add`, and
when every attempt fails with `SSHError` it returns `none` after exactly
`GATEWAY_CONNECT_ATTEMPTS = 30` failed attempts. -/
theorem connect_to_gateway_with_retry_spec :
    GATEWAY_CONNECT_ATTEMPTS = 30 ∧
    (∀ add k c, k < GATEWAY_CONNECT_ATTEMPTS →
      (∀ j, j < k → add j = none) → add k = some c →
      connect_to_gateway_with_retry add = (k + 1, some c)) ∧
    (∀ add, (∀ j, j < GATEWAY_CONNECT_ATTEMPTS → add j = none) →
      connect_to_gateway_with_retry add = (GATEWAY_CONNECT_ATTEMPTS, none)) := by
  refine ⟨rfl, ?_, ?_⟩
  · intro add k c hk hnone hc
    have hskip := connectLoop_skip_many add k 0 GATEWAY_CONNECT_ATTEMPTS
      (Nat.le_of_lt hk) (fun j hj => by simpa using hnone j hj)
    rw [connect_to_gateway_with_retry, hskip]
    obtain ⟨d, hd⟩ : ∃ d, GATEWAY_CONNECT_ATTEMPTS - k = d + 1 :=
      ⟨GATEWAY_CONNECT_ATTEMPTS - k - 1, by omega⟩
    rw [hd]
    simp [connectLoop, hc]
  · intro add hnone
    have hskip := connectLoop_skip_many add GATEWAY_CONNECT_ATTEMPTS 0
      GATEWAY_CONNECT_ATTEMPTS (Nat.le_refl _)
      (fun j hj => by simpa using hnone j hj)
    rw [connect_to_gateway_with_retry, hskip]
    simp [connectLoop]

/-- Witness for C4: with every attempt failing, the loop returns `none`
after 30 attempts; with the third attempt succeeding, it returns that
connection after 3 attempts. -/
theorem connect_to_gateway_with_retry_spec_witness :
    connect_to_gateway_with_retry (fun _ => none) = (30, none) ∧
    connect_to_gateway_with_retry
      (fun k => if k = 2 then some ⟨"10.0.0.9"⟩ else none) =
      (3, some ⟨"10.0.0.9"⟩) :=
  ⟨connect_to_gateway_with_retry_spec.2.2 (fun _ => none) (fun _ _ => rfl),
   connect_to_gateway_with_retry_spec.2.1
     (fun k => if k = 2 then some ⟨"10.0.0.9"⟩ else none)
     2 ⟨"10.0.0.9"⟩ (by decide)
     (fun j hj => by
       have : j ≠ 2 := by omega
       simp [this])
     (by simp)⟩

/-- C1 counterexample: with a RUNNING default gateway whose compute IP has
no pool entry, `register_service` does fail with
`ServerClientError("Gateway is not connected")`, but `run.service_spec`
is not left unchanged: it is assigned before the connection lookup, so the
claim's no-mutation clause is false at this input. -/
theorem register_service_disconnected_counterexample :
    (register_service disconnectedIn).result =
      .error (.serverClientError "Gateway is not connected") ∧
    disconnectedIn.run_model.service_spec = none ∧
    (register_service disconnectedIn).run_model.service_spec ≠ none := by
  decide

/-- C1 (amended): for every run and default gateway with status RUNNING
that passes the HTTPS and wildcard-domain checks, if the compute IP has no
entry in the connection pool then `register_service` fails with
`ServerClientError("Gateway is not connected")`, and `run.service_spec`
has already been assigned the composed service spec when the error is
raised (the assignment precedes the connection lookup). -/
theorem register_service_disconnected_spec
    (rm : RunModel) (rs : RunSpec) (pname sshk : String)
    (g : GatewayModel) (cmp : GatewayComputeModel)
    (pool : List (String × GatewayConnection)) (remote : Except PyErr Unit)
    (optf : RunConfiguration → ServiceOptions)
    (hcmp : g.gateway_compute = some cmp)
    (hst : g.status = GatewayStatus.running)
    (hhttps : ∀ gc, g.configuration = some gc →
      rs.configuration.https = true → gc.public_ip = true)
    (d : String) (hd : g.wildcard_domain = some d) (hdne : d ≠ "")
    (hpool : poolGet pool cmp.ip_address = none) :
    (register_service ⟨rm, rs, ⟨pname, some g, sshk⟩, pool, remote, optf⟩).result =
      .error (.serverClientError "Gateway is not connected") ∧
    ∃ s, (register_service
      ⟨rm, rs, ⟨pname, some g, sshk⟩, pool, remote, optf⟩).run_model.service_spec =
        some s := by
  cases hgc : g.configuration with
  | none =>
    refine ⟨?_, ?_⟩ <;>
      simp [register_service, hcmp, hst, hgc, hd, hdne, hpool]
  | some gc =>
    cases hh : rs.configuration.https with
    | false =>
      refine ⟨?_, ?_⟩ <;>
        simp [register_service, hcmp, hst, hgc, hh, hd, hdne, hpool]
    | true =>
      have hpub := hhttps gc hgc hh
      refine ⟨?_, ?_⟩ <;>
        simp [register_service, hcmp, hst, hgc, hh, hpub, hd, hdne, hpool]

/-- Witness for C1: the amended statement at the concrete disconnected
fixture. -/
theorem register_service_disconnected_spec_witness :
    (register_service disconnectedIn).result =
      .error (.serverClientError "Gateway is not connected") ∧
    ∃ s, (register_service disconnectedIn).run_model.service_spec = some s :=
  register_service_disconnected_spec
    disconnectedIn.run_model disconnectedIn.run_spec "proj" "psk"
    gwFixture
    ⟨"203.0.113.5", "i-1", "us-east-1", "pk", true, false⟩
    [] (.ok ()) (fun _ => [])
    rfl rfl (fun _ _ hh => absurd hh (by decide))
    "*.example.com" rfl (by decide) rfl

/-- C2 (code bug): the source strips the wildcard domain with Python
`lstrip`, which removes every leading star or dot character, not one
literal star-dot word. At the failing input, a wildcard domain starting
with a bare dot, the code produces the URL of the fully stripped domain,
while the claim and the spec's step 5 require the domain to be left
unchanged. -/
theorem register_service_lstrip_code_behavior :
    pyLstrip ['*', '.'] ".example.com" = "example.com" ∧
    specStripLiteralStarDot ".example.com" = ".example.com" ∧
    pyLstrip ['*', '.'] ".example.com" ≠ specStripLiteralStarDot ".example.com" ∧
    (register_service dotDomainIn).run_model.service_spec =
      some { url := "http://r1.example.com", model := none, options := [] } ∧
    (register_service dotDomainIn).result = .ok () := by
  decide

/-- C6: registering an HTTPS service on a gateway whose configuration has
`public_ip = False` fails with `ServerClientError("Cannot run HTTPS
service on gateway without public IP")`; and whenever the remote register
call is issued, its `gateway_https` argument equals the gateway's
effective configured `public_ip` (legacy rows without a stored
configuration default to public). -/
theorem register_service_https_gateway_spec :
    (∀ (rm : RunModel) (rs : RunSpec) (pname sshk : String)
       (g : GatewayModel) (cmp : GatewayComputeModel) (gc : GatewayConfiguration)
       (pool : List (String × GatewayConnection)) (remote : Except PyErr Unit)
       (optf : RunConfiguration → ServiceOptions),
      g.gateway_compute = some cmp → g.status = GatewayStatus.running →
      g.configuration = some gc → gc.public_ip = false →
      rs.configuration.https = true →
      (register_service ⟨rm, rs, ⟨pname, some g, sshk⟩, pool, remote, optf⟩).result =
        .error (.serverClientError
          "Cannot run HTTPS service on gateway without public IP")) ∧
    (∀ (inp : RegisterServiceIn) (args : RegisterCallArgs),
      (register_service inp).call = some args →
      ∃ g, inp.project.default_gateway = some g ∧
        args.gateway_https = (get_gateway_configuration g).public_ip) := by
  constructor
  · intro rm rs pname sshk g cmp gc pool remote optf hcmp hst hgc hpub hh
    simp [register_service, hcmp, hst, hgc, hpub, hh]
  · intro inp args hcall
    simp only [register_service] at hcall
    split at hcall
    next => simp at hcall
    next g hdg =>
      refine ⟨g, hdg, ?_⟩
      split at hcall
      next => simp at hcall
      next cmp hcmp =>
        split at hcall
        next => simp at hcall
        next hst =>
          split at hcall
          next => simp at hcall
          next hviol =>
            split at hcall
            next => simp at hcall
            next wd hwd =>
              split at hcall
              next => simp at hcall
              next conn hconn =>
                split at hcall <;>
                  (simp at hcall;
                   cases hgc : g.configuration <;>
                     simp [← hcall, get_gateway_configuration, hgc])

/-- Witness for C6: the HTTPS-on-private-gateway rejection at the concrete
private-gateway fixture, and the gateway scheme at the connected public
fixture. -/
theorem register_service_https_gateway_spec_witness :
    (register_service httpsPrivateIn).result =
      .error (.serverClientError
        "Cannot run HTTPS service on gateway without public IP") ∧
    ∃ g, dotDomainIn.project.default_gateway = some g ∧
      ({ project := "proj", run_id := 8, domain := "r1.example.com",
         service_https := false, gateway_https := true, auth := false,
         options := [], ssh_private_key := "psk" } :
        RegisterCallArgs).gateway_https = (get_gateway_configuration g).public_ip :=
  ⟨register_service_https_gateway_spec.1
    httpsPrivateIn.run_model httpsPrivateIn.run_spec "proj" "psk"
    ({ gwFixture with configuration := some privateGwConfig })
    ⟨"203.0.113.5", "i-1", "us-east-1", "pk", true, false⟩
    privateGwConfig
    [("203.0.113.5", ⟨"203.0.113.5"⟩)] (.ok ()) (fun _ => [])
    rfl rfl rfl rfl rfl,
   register_service_https_gateway_spec.2 dotDomainIn
    { project := "proj", run_id := 8, domain := "r1.example.com",
      service_https := false, gateway_https := true, auth := false,
      options := [], ssh_private_key := "psk" }
    (by decide)⟩

/-- C7: a configuration with `public_ip = false` whose backend is not in
`BACKENDS_WITH_PRIVATE_GATEWAY_SUPPORT` is rejected with a
`ServerClientError` whose message lists the supported backends, before any
gateway row is inserted; and a configuration with `public_ip = true` is
never rejected by this check. -/
theorem create_gateway_private_check_spec :
    (∀ (bid : Nat) (pdg : Option Nat) (names : List String)
       (cfg : GatewayConfiguration) (draw : Nat → String) (fuel : Nat),
      cfg.public_ip = false →
      cfg.backend ∉ BACKENDS_WITH_PRIVATE_GATEWAY_SUPPORT →
      create_gateway (some bid) pdg names cfg draw fuel =
        some ⟨[], none,
          .error (.serverClientError (privateGatewayErrorMsg cfg.backend))⟩) ∧
    (∀ (bm pdg : Option Nat) (names : List String)
       (cfg : GatewayConfiguration) (draw : Nat → String) (fuel : Nat)
       (out : CreateGatewayOut) (b : BackendType),
      cfg.public_ip = true →
      create_gateway bm pdg names cfg draw fuel = some out →
      out.result ≠ .error (.serverClientError (privateGatewayErrorMsg b))) := by
  constructor
  · intro bid pdg names cfg draw fuel hpub hmem
    simp [create_gateway, hpub, hmem]
  · intro bm pdg names cfg draw fuel out b hpub hout
    cases bm with
    | none =>
      simp [create_gateway] at hout
      rw [← hout]
      intro hcontra
      simp at hcontra
      cases b <;> revert hcontra <;> decide
    | some bid =>
      rw [create_gateway] at hout
      rw [if_neg (by simp [hpub])] at hout
      rcases hname : (match cfg.name with
        | some n => some n
        | none => generate_gateway_name names draw fuel) with _ | name
      · rw [hname] at hout
        simp at hout
      · rw [hname] at hout
        simp at hout
        rw [← hout]
        simp

/-- Witness for C7: the spec's private-gateway rejection scenario,
backend `aws` with `public_ip = false`, with the message spelled out
(`kubernetes` is listed, `aws` is not). -/
theorem create_gateway_private_check_spec_witness :
    create_gateway (some 1) none ["brave-otter"]
      { name := none, default := false, backend := .aws, region := "us-east-1",
        domain := none, public_ip := false }
      (fun _ => "calm-badger") 5 =
      some ⟨[], none,
        .error (.serverClientError (privateGatewayErrorMsg .aws))⟩ ∧
    privateGatewayErrorMsg .aws =
      "Private gateways are not supported for aws backend. " ++
        "Supported backends: [\x27kubernetes\x27]." :=
  ⟨create_gateway_private_check_spec.1 1 none ["brave-otter"]
    { name := none, default := false, backend := .aws, region := "us-east-1",
      domain := none, public_ip := false }
    (fun _ => "calm-badger") 5 rfl (by decide),
   by decide⟩

-- Invariant lemmas about the per-gateway cleanup step of `delete_gateways`.

theorem deleteStep_pool_not_mem (tok : Nat → Bool) (ip : String)
    (st : DeleteState) (g : GatewayRowRef) (h : ip ∉ st.pool_hosts) :
    ip ∉ (deleteStep tok st g).pool_hosts := by
  unfold deleteStep
  split
  · cases hci : g.compute_ip with
    | none => simpa [hci] using h
    | some ip2 =>
      simp only [hci]
      intro hmem
      rw [List.mem_filter] at hmem
      exact h hmem.1
  · exact h

theorem deleteStep_tombstoned (tok : Nat → Bool) (ip : String)
    (st : DeleteState) (g : GatewayRowRef)
    (h : ∀ c ∈ st.computes, c.ip_address = ip → c.active = false ∧ c.deleted = true) :
    ∀ c ∈ (deleteStep tok st g).computes, c.ip_address = ip →
      c.active = false ∧ c.deleted = true := by
  unfold deleteStep
  split
  · cases hci : g.compute_ip with
    | none => simpa [hci] using h
    | some ip2 =>
      simp only [hci]
      intro c hc hcip
      rw [List.mem_map] at hc
      obtain ⟨c0, hc0, rfl⟩ := hc
      by_cases heq : c0.ip_address = ip2
      · simp [heq]
      · simp only [if_neg heq] at hcip ⊢
        exact h c0 hc0 hcip
  · exact h

theorem deleteStep_no_id (tok : Nat → Bool) (i : Nat)
    (st : DeleteState) (g : GatewayRowRef)
    (h : ∀ g2 ∈ st.gateways, g2.id ≠ i) :
    ∀ g2 ∈ (deleteStep tok st g).gateways, g2.id ≠ i := by
  unfold deleteStep
  split
  · intro g2 hg2
    cases hci : g.compute_ip <;> simp only [hci] at hg2 <;>
      (rw [List.mem_filter] at hg2; exact h g2 hg2.1)
  · exact h

theorem deleteStep_mem_gateway (tok : Nat → Bool) (g : GatewayRowRef)
    (hfalse : tok g.id = false) (st : DeleteState) (h2 : GatewayRowRef)
    (hmem : g ∈ st.gateways) : g ∈ (deleteStep tok st h2).gateways := by
  unfold deleteStep
  split
  next htok2 =>
    have hne : g.id ≠ h2.id := by
      intro he
      rw [he, htok2] at hfalse
      cases hfalse
    cases hci : h2.compute_ip <;> simp only [hci] <;>
      (rw [List.mem_filter]; exact ⟨hmem, by simpa using hne⟩)
  next => exact hmem

theorem deleteStep_establishes (tok : Nat → Bool) (g : GatewayRowRef) (ip : String)
    (htok : tok g.id = true) (hci : g.compute_ip = some ip) (st : DeleteState) :
    ip ∉ (deleteStep tok st g).pool_hosts ∧
    ∀ c ∈ (deleteStep tok st g).computes, c.ip_address = ip →
      c.active = false ∧ c.deleted = true := by
  unfold deleteStep
  simp only [htok, hci, if_true]
  constructor
  · intro hmem
    rw [List.mem_filter] at hmem
    simp at hmem
  · intro c hc hcip
    rw [List.mem_map] at hc
    obtain ⟨c0, hc0, rfl⟩ := hc
    by_cases heq : c0.ip_address = ip
    · simp [heq]
    · simp only [if_neg heq] at hcip
      exact absurd hcip heq

theorem deleteStep_establishes_no_id (tok : Nat → Bool) (g : GatewayRowRef)
    (htok : tok g.id = true) (st : DeleteState) :
    ∀ g2 ∈ (deleteStep tok st g).gateways, g2.id ≠ g.id := by
  unfold deleteStep
  simp only [htok, if_true]
  cases hci : g.compute_ip <;> simp only [hci] <;>
    (intro g2 hg2; rw [List.mem_filter] at hg2; simpa using hg2.2)

theorem foldl_deleteStep_preserves (tok : Nat → Bool) (P : DeleteState → Prop)
    (hstep : ∀ st g, P st → P (deleteStep tok st g)) :
    ∀ (l : List GatewayRowRef) (st : DeleteState), P st →
      P (List.foldl (deleteStep tok) st l) := by
  intro l
  induction l with
  | nil => intro st h; exact h
  | cons a t ih => intro st h; exact ih _ (hstep st a h)

theorem foldl_deleteStep_establishes (tok : Nat → Bool) (g : GatewayRowRef)
    (P : DeleteState → Prop)
    (hstep : ∀ st h, P st → P (deleteStep tok st h))
    (hest : ∀ st, P (deleteStep tok st g)) :
    ∀ (l : List GatewayRowRef) (st : DeleteState), g ∈ l →
      P (List.foldl (deleteStep tok) st l) := by
  intro l
  induction l with
  | nil => intro st h; cases h
  | cons a t ih =>
    intro st hmem
    rcases List.mem_cons.mp hmem with rfl | hmem2
    · exact foldl_deleteStep_preserves tok P hstep t _ (hest st)
    · exact ih _ hmem2

/-- C5: for every gateway `delete_gateways` processes (matching name, not
on the managed `DSTACK` backend): on successful backend termination its
compute IP is removed from the pool, its compute row is tombstoned
(`active = false`, `deleted = true`) and its gateway row is deleted; on a
raising termination its gateway row is left intact; and in both cases its
id is removed from `PROCESSING_GATEWAYS_IDS` before the function
returns. -/
theorem delete_gateways_spec (st : DeleteState) (names : List String)
    (terminate_ok : Nat → Bool) (g : GatewayRowRef)
    (hg : g ∈ st.gateways) (hbt : g.backend_type ≠ BackendType.dstack)
    (hname : g.name ∈ names) :
    (terminate_ok g.id = true →
      (∀ ip, g.compute_ip = some ip →
        ip ∉ (delete_gateways st names terminate_ok).pool_hosts ∧
        ∀ c ∈ (delete_gateways st names terminate_ok).computes,
          c.ip_address = ip → c.active = false ∧ c.deleted = true) ∧
      (∀ g2 ∈ (delete_gateways st names terminate_ok).gateways, g2.id ≠ g.id)) ∧
    (terminate_ok g.id = false →
      g ∈ (delete_gateways st names terminate_ok).gateways) ∧
    g.id ∉ (delete_gateways st names terminate_ok).processing_ids := by
  have hsel : g ∈ st.gateways.filter
      (fun g0 => decide (g0.backend_type ≠ BackendType.dstack ∧ g0.name ∈ names)) :=
    List.mem_filter.mpr ⟨hg, by simp [hbt, hname]⟩
  refine ⟨fun htok => ⟨?_, ?_⟩, fun hfalse => ?_, ?_⟩
  · intro ip hci
    exact foldl_deleteStep_establishes terminate_ok g
      (fun s => ip ∉ s.pool_hosts ∧ ∀ c ∈ s.computes, c.ip_address = ip →
        c.active = false ∧ c.deleted = true)
      (fun s h hP => ⟨deleteStep_pool_not_mem _ _ _ _ hP.1,
        deleteStep_tombstoned _ _ _ _ hP.2⟩)
      (fun s => deleteStep_establishes terminate_ok g ip htok hci s)
      _ _ hsel
  · exact foldl_deleteStep_establishes terminate_ok g
      (fun s => ∀ g2 ∈ s.gateways, g2.id ≠ g.id)
      (fun s h hP => deleteStep_no_id _ _ _ _ hP)
      (fun s => deleteStep_establishes_no_id terminate_ok g htok s)
      _ _ hsel
  · exact foldl_deleteStep_preserves terminate_ok (fun s => g ∈ s.gateways)
      (fun s h2 hP => deleteStep_mem_gateway terminate_ok g hfalse s h2 hP)
      _ _ hg
  · intro hmem
    simp only [delete_gateways, List.mem_filter, decide_eq_true_eq] at hmem
    exact hmem.2 (List.mem_map.mpr ⟨g, hsel, rfl⟩)

/-- Witness for C5: two gateways, the backend termination fails for `g1`
and succeeds for `g2`; `g2` is fully removed (connection dropped, compute
tombstoned, row deleted), `g1`'s row remains, both ids leave the
registry. -/
theorem delete_gateways_spec_witness :
    (delete_gateways
      ⟨[⟨1, "g1", .aws, some "10.0.0.1"⟩, ⟨2, "g2", .aws, some "10.0.0.2"⟩],
       [⟨"10.0.0.1", "i-1", "r", "k", true, false⟩,
        ⟨"10.0.0.2", "i-2", "r", "k", true, false⟩],
       ["10.0.0.1", "10.0.0.2"], []⟩
      ["g1", "g2"] (fun i => i == 2)).pool_hosts = ["10.0.0.1"] ∧
    ("10.0.0.2" ∉ (delete_gateways
      ⟨[⟨1, "g1", .aws, some "10.0.0.1"⟩, ⟨2, "g2", .aws, some "10.0.0.2"⟩],
       [⟨"10.0.0.1", "i-1", "r", "k", true, false⟩,
        ⟨"10.0.0.2", "i-2", "r", "k", true, false⟩],
       ["10.0.0.1", "10.0.0.2"], []⟩
      ["g1", "g2"] (fun i => i == 2)).pool_hosts ∧
     ∀ c ∈ (delete_gateways
      ⟨[⟨1, "g1", .aws, some "10.0.0.1"⟩, ⟨2, "g2", .aws, some "10.0.0.2"⟩],
       [⟨"10.0.0.1", "i-1", "r", "k", true, false⟩,
        ⟨"10.0.0.2", "i-2", "r", "k", true, false⟩],
       ["10.0.0.1", "10.0.0.2"], []⟩
      ["g1", "g2"] (fun i => i == 2)).computes,
       c.ip_address = "10.0.0.2" → c.active = false ∧ c.deleted = true) ∧
    (⟨1, "g1", .aws, some "10.0.0.1"⟩ : GatewayRowRef) ∈ (delete_gateways
      ⟨[⟨1, "g1", .aws, some "10.0.0.1"⟩, ⟨2, "g2", .aws, some "10.0.0.2"⟩],
       [⟨"10.0.0.1", "i-1", "r", "k", true, false⟩,
        ⟨"10.0.0.2", "i-2", "r", "k", true, false⟩],
       ["10.0.0.1", "10.0.0.2"], []⟩
      ["g1", "g2"] (fun i => i == 2)).gateways ∧
    (1 : Nat) ∉ (delete_gateways
      ⟨[⟨1, "g1", .aws, some "10.0.0.1"⟩, ⟨2, "g2", .aws, some "10.0.0.2"⟩],
       [⟨"10.0.0.1", "i-1", "r", "k", true, false⟩,
        ⟨"10.0.0.2", "i-2", "r", "k", true, false⟩],
       ["10.0.0.1", "10.0.0.2"], []⟩
      ["g1", "g2"] (fun i => i == 2)).processing_ids ∧
    (2 : Nat) ∉ (delete_gateways
      ⟨[⟨1, "g1", .aws, some "10.0.0.1"⟩, ⟨2, "g2", .aws, some "10.0.0.2"⟩],
       [⟨"10.0.0.1", "i-1", "r", "k", true, false⟩,
        ⟨"10.0.0.2", "i-2", "r", "k", true, false⟩],
       ["10.0.0.1", "10.0.0.2"], []⟩
      ["g1", "g2"] (fun i => i == 2)).processing_ids := by
  refine ⟨by decide, ?_, ?_, ?_, ?_⟩
  · exact (delete_gateways_spec _ ["g1", "g2"] (fun i => i == 2)
      ⟨2, "g2", .aws, some "10.0.0.2"⟩ (by decide) (by decide) (by decide)).1
      rfl |>.1 "10.0.0.2" rfl
  · exact (delete_gateways_spec _ ["g1", "g2"] (fun i => i == 2)
      ⟨1, "g1", .aws, some "10.0.0.1"⟩ (by decide) (by decide) (by decide)).2.1 rfl
  · exact (delete_gateways_spec _ ["g1", "g2"] (fun i => i == 2)
      ⟨1, "g1", .aws, some "10.0.0.1"⟩ (by decide) (by decide) (by decide)).2.2
  · exact (delete_gateways_spec _ ["g1", "g2"] (fun i => i == 2)
      ⟨2, "g2", .aws, some "10.0.0.2"⟩ (by decide) (by decide) (by decide)).2.2

/-- C8: when the gateway connection is available, `unregister_service` is
idempotent from the caller's perspective: a remote `GatewayError` (service
not present) is swallowed with a warning and the call returns success,
while transport failures (`RequestError`, `SSHError`) during the remote
call are re-raised as `GatewayError`. -/
theorem unregister_service_idempotent_spec (db : GatewayDb)
    (gid : Option Nat) (conn : GatewayConnection)
    (hconn : get_gateway_connection db gid = .ok conn) :
    (∀ m, unregister_service db gid (.error (.gatewayError m)) =
      ⟨[.connLookup, .remoteCall], .ok (), true⟩) ∧
    (∀ m, unregister_service db gid (.error (.requestError m)) =
      ⟨[.connLookup, .remoteCall],
        .error (.gatewayError (PyErr.reprStr (.requestError m))), false⟩) ∧
    (∀ m, unregister_service db gid (.error (.sshError m)) =
      ⟨[.connLookup, .remoteCall],
        .error (.gatewayError (PyErr.reprStr (.sshError m))), false⟩) := by
  refine ⟨?_, ?_, ?_⟩ <;> intro m <;>
    simp [unregister_service, hconn, unregisterRemoteOutcome]

/-- Witness for C8: a one-gateway context with a live pool entry; the
second unregister (daemon answers `GatewayError`) still succeeds with a
warning, and a transport error surfaces as `GatewayError`. -/
theorem unregister_service_idempotent_spec_witness :
    unregister_service ⟨[(1, some "10.0.0.1")], [("10.0.0.1", ⟨"10.0.0.1"⟩)]⟩
      (some 1) (.error (.gatewayError "service not registered")) =
      ⟨[.connLookup, .remoteCall], .ok (), true⟩ ∧
    unregister_service ⟨[(1, some "10.0.0.1")], [("10.0.0.1", ⟨"10.0.0.1"⟩)]⟩
      (some 1) (.error (.sshError "tunnel down")) =
      ⟨[.connLookup, .remoteCall],
        .error (.gatewayError (PyErr.reprStr (.sshError "tunnel down"))), false⟩ :=
  ⟨(unregister_service_idempotent_spec
      ⟨[(1, some "10.0.0.1")], [("10.0.0.1", ⟨"10.0.0.1"⟩)]⟩
      (some 1) ⟨"10.0.0.1"⟩ (by decide)).1 "service not registered",
   (unregister_service_idempotent_spec
      ⟨[(1, some "10.0.0.1")], [("10.0.0.1", ⟨"10.0.0.1"⟩)]⟩
      (some 1) ⟨"10.0.0.1"⟩ (by decide)).2.2 "tunnel down"⟩

/-- C9: `get_gateway_connection` raises `GatewayError` when the gateway
row is missing, when it has no compute, and when the pool has no entry for
the compute IP; and in `unregister_service` and `unregister_replica` this
lookup precedes the `try` block that downgrades `GatewayError`, so its
error always propagates to the caller (no warning, no remote call). -/
theorem get_gateway_connection_propagates_spec :
    (∀ (db : GatewayDb) (gid : Option Nat), lookupGateway db gid = none →
      get_gateway_connection db gid =
        .error (.gatewayError "Gateway doesn\x27t exist")) ∧
    (∀ (db : GatewayDb) (gid : Option Nat), lookupGateway db gid = some none →
      get_gateway_connection db gid =
        .error (.gatewayError "Gateway is broken, no compute")) ∧
    (∀ (db : GatewayDb) (gid : Option Nat) (ip : String),
      lookupGateway db gid = some (some ip) → poolGet db.pool ip = none →
      get_gateway_connection db gid =
        .error (.gatewayError "Gateway is not connected")) ∧
    (∀ (db : GatewayDb) (gid : Option Nat) (remote : Except PyErr Unit)
       (e : PyErr), get_gateway_connection db gid = .error e →
      unregister_service db gid remote = ⟨[.connLookup], .error e, false⟩) ∧
    (∀ (db : GatewayDb) (gid : Nat) (remote : Except PyErr Unit) (e : PyErr),
      get_gateway_connection db (some gid) = .error e →
      unregister_replica db (some gid) remote =
        ⟨[.connLookup], .error e, false⟩) := by
  refine ⟨?_, ?_, ?_, ?_, ?_⟩
  · intro db gid h
    simp [get_gateway_connection, h]
  · intro db gid h
    simp [get_gateway_connection, h]
  · intro db gid ip h hp
    simp [get_gateway_connection, h, hp]
  · intro db gid remote e h
    simp [unregister_service, h]
  · intro db gid remote e h
    simp [unregister_replica, h]

/-- Witness for C9: the three lookup failures on concrete contexts, and
their propagation through both unregister operations. -/
theorem get_gateway_connection_propagates_spec_witness :
    get_gateway_connection ⟨[], []⟩ (some 5) =
      .error (.gatewayError "Gateway doesn\x27t exist") ∧
    get_gateway_connection ⟨[(6, none)], []⟩ (some 6) =
      .error (.gatewayError "Gateway is broken, no compute") ∧
    get_gateway_connection ⟨[(7, some "10.0.0.7")], []⟩ (some 7) =
      .error (.gatewayError "Gateway is not connected") ∧
    unregister_service ⟨[], []⟩ (some 5) (.ok ()) =
      ⟨[.connLookup], .error (.gatewayError "Gateway doesn\x27t exist"), false⟩ ∧
    unregister_replica ⟨[(7, some "10.0.0.7")], []⟩ (some 7) (.ok ()) =
      ⟨[.connLookup], .error (.gatewayError "Gateway is not connected"), false⟩ :=
  ⟨get_gateway_connection_propagates_spec.1 ⟨[], []⟩ (some 5) rfl,
   get_gateway_connection_propagates_spec.2.1 ⟨[(6, none)], []⟩ (some 6) (by decide),
   get_gateway_connection_propagates_spec.2.2.1 ⟨[(7, some "10.0.0.7")], []⟩
     (some 7) "10.0.0.7" (by decide) rfl,
   get_gateway_connection_propagates_spec.2.2.2.1 ⟨[], []⟩ (some 5) (.ok ())
     (.gatewayError "Gateway doesn\x27t exist") rfl,
   get_gateway_connection_propagates_spec.2.2.2.2 ⟨[(7, some "10.0.0.7")], []⟩
     7 (.ok ()) (.gatewayError "Gateway is not connected") (by decide)⟩

/-- C10: unregistering a replica of a run whose `gateway_id` is null is a
silent no-op: `unregister_replica` returns success without any gateway
connection lookup or remote call. -/
theorem unregister_replica_no_gateway_spec (db : GatewayDb)
    (remote : Except PyErr Unit) :
    unregister_replica db none remote = ⟨[], .ok (), false⟩ := rfl

end Dstack
